import Mathlib

/-!
Verification development for the bob-agent intake-and-orchestration pipeline.

The definitions below are shallow embeddings of the Python source:
  * `app/db/repositories/dedup_repo.py` — deduplication repository,
  * `app/main.py` — webhook intake gateway (`handle_message`),
  * `app/middleware/rate_limit.py` — Redis sliding-window rate limiter,
  * `app/services/site_cache.py` — read-through site context cache,
  * `app/agent/graph.py` — agent loop routing, transcription node,
    post-turn compaction, and the worker entry point `run_agent`,
  * `app/services/soniox_service.py` — speech-to-text polling client,
  * `app/db/repositories/defect_repo.py` and
    `app/agent/tools/update_defect.py` — defect updates.

Fallible Python calls are embedded with `Except`; external collaborators
(Redis, the LLM, the Soniox API) are parameters of the functions that call
them, so that each theorem quantifies over collaborator behaviour.
-/

namespace BobAgent

/-! ## Deduplication repository

Embeds `app/db/repositories/dedup_repo.py`.  The `processed_messages` table
(`app/db/models.py`, class `ProcessedMessage`) has primary key `message_id`;
a database state is a list of rows.  `mark_as_processed` executes
`INSERT ... ON CONFLICT DO NOTHING`, i.e. the row is inserted only when no
row with the same primary key exists; the statement never errors, so the
embedding is a total function.  `is_already_processed` runs an `EXISTS`
query on `message_id`. -/

structure DedupRecord where
  message_id : String
  group_id : String
deriving DecidableEq, Repr

abbrev DedupDB := List DedupRecord

def is_already_processed (db : DedupDB) (message_id : String) : Bool :=
  db.any (fun r => r.message_id == message_id)

def mark_as_processed (db : DedupDB) (message_id group_id : String) : DedupDB :=
  if is_already_processed db message_id then db
  else db ++ [⟨message_id, group_id⟩]

theorem is_already_processed_mark (db : DedupDB) (m g : String) :
    is_already_processed (mark_as_processed db m g) m = true := by
  unfold mark_as_processed
  by_cases h : is_already_processed db m
  · simp [h]
  · simp only [h, if_false, Bool.not_eq_true] at *
    simp [is_already_processed, List.any_append]

/-! ## Intake gateway

Embeds `handle_message` in `app/main.py`.  The request handler performs, in
source order: (1) `verify_webhook_secret` (raises 401 on failure),
(2) `check_rate_limit` (raises 429 on breach), (3) `is_already_processed`
— early return with status `"duplicate"`, (4) `mark_as_processed` followed
by `session.commit()`, (5) `enqueue_job("process_message", ...)`.  The two
fallible guards are abstracted by the booleans `authOk` / `rateOk` (their
internals are embedded separately below); the trace records each executed
step in order. -/

inductive GwEffect where
  | auth | rateLimit | dedupCheck | markProcessed | commit | enqueue
deriving DecidableEq, Repr

inductive GwReject where
  | unauthorized | rateLimited
deriving DecidableEq, Repr

structure GwState where
  committed : DedupDB
  queue : List String
deriving DecidableEq, Repr

structure GwRun where
  result : Except GwReject String
  state : GwState
  trace : List GwEffect
deriving Repr

def handle_message (authOk rateOk : Bool) (st : GwState) (messageId groupId : String) : GwRun :=
  if ¬ authOk then ⟨.error .unauthorized, st, [.auth]⟩
  else if ¬ rateOk then ⟨.error .rateLimited, st, [.auth, .rateLimit]⟩
  else if is_already_processed st.committed messageId then
    ⟨.ok "duplicate", st, [.auth, .rateLimit, .dedupCheck]⟩
  else
    ⟨.ok "accepted",
     ⟨mark_as_processed st.committed messageId groupId, st.queue ++ [messageId]⟩,
     [.auth, .rateLimit, .dedupCheck, .markProcessed, .commit, .enqueue]⟩

theorem mark_as_processed_idem (db : DedupDB) (m g g2 : String) :
    mark_as_processed (mark_as_processed db m g) m g2 = mark_as_processed db m g := by
  have h := is_already_processed_mark db m g
  rw [mark_as_processed]
  simp [h]

/-- C2: for every eventId and tenantId, calling `mark_as_processed` twice and
then `is_already_processed` is indistinguishable from calling it once: the
second call produces the identical database state (hence no second record and,
the embedding being a total function, no error), and `is_already_processed`
answers true in both cases. -/
theorem C2_markProcessed_idempotent (db : DedupDB) (eventId tenantId : String) :
    mark_as_processed (mark_as_processed db eventId tenantId) eventId tenantId
      = mark_as_processed db eventId tenantId
    ∧ is_already_processed (mark_as_processed db eventId tenantId) eventId = true :=
  ⟨mark_as_processed_idem db eventId tenantId tenantId,
   is_already_processed_mark db eventId tenantId⟩

theorem handle_message_marks (st : GwState) (m g : String) :
    is_already_processed (handle_message true true st m g).state.committed m = true := by
  unfold handle_message
  by_cases h : is_already_processed st.committed m
  · simp [h]
  · simp only [Bool.not_eq_true] at h
    simp [h, is_already_processed_mark]

theorem handle_message_processed_state (st : GwState) (m : String)
    (h : is_already_processed st.committed m = true) (a r : Bool) (g2 : String) :
    (handle_message a r st m g2).state = st := by
  unfold handle_message
  by_cases ha : a <;> by_cases hr : r <;> simp [ha, hr, h]

/-- C3: the gateway runs auth, rate-limit, dedup-check, mark-and-commit,
enqueue in that order.  On a duplicate it returns status "duplicate" with no
enqueue effect and an unchanged state; on acceptance the trace commits
strictly before enqueuing; a second delivery of the same messageId after a
successful admission leaves the gateway state unchanged, so the event is
enqueued at most once. -/
theorem C3_gateway_admission_order (st : GwState) (m g : String) :
    (is_already_processed st.committed m = true →
      (handle_message true true st m g).result = .ok "duplicate"
      ∧ GwEffect.enqueue ∉ (handle_message true true st m g).trace
      ∧ (handle_message true true st m g).state = st)
    ∧ (is_already_processed st.committed m = false →
      (handle_message true true st m g).trace
        = [.auth, .rateLimit, .dedupCheck, .markProcessed, .commit, .enqueue]
      ∧ (handle_message true true st m g).trace.indexOf GwEffect.commit
          < (handle_message true true st m g).trace.indexOf GwEffect.enqueue)
    ∧ (∀ a2 r2 g2,
        (handle_message a2 r2 (handle_message true true st m g).state m g2).state
          = (handle_message true true st m g).state)
    ∧ (st.queue.count m = 0 →
        (handle_message true true st m g).state.queue.count m ≤ 1) := by
  refine ⟨fun h => ?_, fun h => ?_, fun a2 r2 g2 => ?_, fun h => ?_⟩
  · unfold handle_message
    simp [h]
  · unfold handle_message
    simp [h]
  · exact handle_message_processed_state _ m (handle_message_marks st m g) a2 r2 g2
  · unfold handle_message
    by_cases hp : is_already_processed st.committed m
    · simp [hp, h]
    · simp only [Bool.not_eq_true] at hp
      simp [hp, h, List.count_append]

/-- Witness for C3: a concrete already-processed state yields "duplicate", and
a concrete fresh state yields the canonical six-step trace. -/
theorem C3_gateway_admission_order_witness :
    (handle_message true true ⟨[⟨"m1", "g1"⟩], []⟩ "m1" "g1").result = .ok "duplicate"
    ∧ (handle_message true true ⟨[], []⟩ "m1" "g1").trace
        = [.auth, .rateLimit, .dedupCheck, .markProcessed, .commit, .enqueue]
    ∧ (handle_message true true ⟨[], []⟩ "m1" "g1").state.queue.count "m1" ≤ 1 :=
  ⟨((C3_gateway_admission_order ⟨[⟨"m1", "g1"⟩], []⟩ "m1" "g1").1 (by decide)).1,
   ((C3_gateway_admission_order ⟨[], []⟩ "m1" "g1").2.1 (by decide)).1,
   (C3_gateway_admission_order ⟨[], []⟩ "m1" "g1").2.2.2 (by decide)⟩

/-! ## Agent loop and iteration cap

Embeds the `agent ⇄ tools` loop of `app/agent/graph.py`.  `agent_node`
increments `iteration_count` on every invocation and records whether the LLM
response carried tool calls; `route_after_agent` sends the run to the tool
node only when the last response has tool calls and
`iteration_count >= AGENT_MAX_ITERATIONS` does not hold; the `tools` node
loops back to `agent`.  The LLM is abstracted as an oracle mapping the
iteration counter at call time to "did this response request tools"; the
loop is embedded with explicit fuel (the graph library recursion), and
`tool_executions` counts visits to the tool node. -/

def AGENT_MAX_ITERATIONS : Nat := 3

inductive Route where
  | tools | post_process
deriving DecidableEq, Repr

def route_after_agent (has_tool_calls : Bool) (iteration_count maxIter : Nat) : Route :=
  let over_limit := maxIter ≤ iteration_count
  if has_tool_calls = true ∧ ¬ over_limit then .tools else .post_process

structure LoopState where
  iteration_count : Nat
  tool_executions : Nat
deriving DecidableEq, Repr

def agent_step (oracle : Nat → Bool) (s : LoopState) : LoopState × Bool :=
  ({ s with iteration_count := s.iteration_count + 1 }, oracle s.iteration_count)

def run_loop (oracle : Nat → Bool) (maxIter : Nat) : Nat → LoopState → Option LoopState
  | 0, _ => none
  | fuel + 1, s =>
    let step := agent_step oracle s
    match route_after_agent step.2 step.1.iteration_count maxIter with
    | .tools =>
      run_loop oracle maxIter fuel
        { step.1 with tool_executions := step.1.tool_executions + 1 }
    | .post_process => some step.1

theorem route_after_agent_tools_iff (h : Bool) (c maxIter : Nat) :
    route_after_agent h c maxIter = .tools ↔ h = true ∧ c < maxIter := by
  unfold route_after_agent
  by_cases hc : h = true ∧ ¬ maxIter ≤ c
  · simp [hc]
    omega
  · simp only [hc, if_false]
    constructor
    · intro hcontra
      exact absurd hcontra (by simp)
    · intro ⟨h1, h2⟩
      exact absurd ⟨h1, by omega⟩ hc

theorem run_loop_isSome (oracle : Nat → Bool) (maxIter : Nat) :
    ∀ fuel s, 1 ≤ fuel → maxIter ≤ fuel + s.iteration_count →
      (run_loop oracle maxIter fuel s).isSome := by
  intro fuel
  induction fuel with
  | zero => intro s h1 _; omega
  | succ n ih =>
    intro s _ h2
    rw [run_loop]
    cases hr : route_after_agent (agent_step oracle s).2
        (agent_step oracle s).1.iteration_count maxIter with
    | tools =>
      have := (route_after_agent_tools_iff _ _ _).mp hr
      simp only [agent_step] at this
      apply ih
      · omega
      · simp [agent_step]; omega
    | post_process => simp

theorem run_loop_tool_bound (oracle : Nat → Bool) (maxIter : Nat) :
    ∀ fuel s r, run_loop oracle maxIter fuel s = some r →
      r.tool_executions ≤ s.tool_executions + (maxIter - s.iteration_count) := by
  intro fuel
  induction fuel with
  | zero => intro s r hr; simp [run_loop] at hr
  | succ n ih =>
    intro s r hr
    rw [run_loop] at hr
    cases hroute : route_after_agent (agent_step oracle s).2
        (agent_step oracle s).1.iteration_count maxIter with
    | tools =>
      rw [hroute] at hr
      have hlt := (route_after_agent_tools_iff _ _ _).mp hroute
      simp only [agent_step] at hlt
      have := ih _ _ hr
      simp only [agent_step] at this
      omega
    | post_process =>
      rw [hroute] at hr
      simp only [Option.some.injEq] at hr
      subst hr
      simp [agent_step]

/-- C4: for every LLM oracle — in particular one that requests tools on every
response — the loop started at `iteration_count = 0` terminates (with fuel
`maxIter + 1`) having executed the tool node at most `maxIter` times, and the
tools branch is taken exactly when the response carried tool calls and the
iteration counter (incremented on each agent invocation) is still below the
cap. -/
theorem C4_iteration_cap (oracle : Nat → Bool) (maxIter : Nat) :
    (∃ r, run_loop oracle maxIter (maxIter + 1) ⟨0, 0⟩ = some r
      ∧ r.tool_executions ≤ maxIter)
    ∧ (∀ h c, route_after_agent h c maxIter = .tools ↔ h = true ∧ c < maxIter) := by
  constructor
  · have hs := run_loop_isSome oracle maxIter (maxIter + 1) ⟨0, 0⟩ (by omega) (by simp)
    rcases Option.isSome_iff_exists.mp hs with ⟨r, hr⟩
    refine ⟨r, hr, ?_⟩
    have := run_loop_tool_bound oracle maxIter (maxIter + 1) ⟨0, 0⟩ r hr
    simpa using this
  · intro h c
    exact route_after_agent_tools_iff h c maxIter

/-! ## Worker entry point: acknowledgment discipline

Embeds `run_agent` in `app/agent/graph.py` (lines 241–288).  The body is a
`try` block (graph invocation, optional memory-clear update), an `except`
that logs and re-raises, and a `finally` that calls
`bridge.confirm_processing` wrapped in its own `try`/`except` which logs a
warning and swallows the acknowledgment error.  The graph invocation and the
acknowledgment call are external collaborators, so the embedding takes their
outcomes as `Except` parameters and reifies the side effects as a trace. -/

inductive TurnError where
  | reasonFailure
  | toolFailure
  | deliverFailure
  | ackFailure
deriving DecidableEq, Repr

inductive WorkerEffect where
  | invokeGraph
  | clearMemory
  | ackCall
  | logError
  | logWarning
deriving DecidableEq, Repr

structure GraphOutcome where
  tool_was_called : Bool
deriving DecidableEq, Repr

def run_agent (graphResult : Except TurnError GraphOutcome)
    (ackResult : Except TurnError Unit) :
    List WorkerEffect × Except TurnError Unit :=
  match graphResult with
  | .ok out =>
    let tryTrace :=
      [WorkerEffect.invokeGraph]
        ++ (if out.tool_was_called then [WorkerEffect.clearMemory] else [])
    match ackResult with
    | .ok _ => (tryTrace ++ [.ackCall], .ok ())
    | .error _ => (tryTrace ++ [.ackCall, .logWarning], .ok ())
  | .error e =>
    match ackResult with
    | .ok _ => ([.invokeGraph, .logError, .ackCall], .error e)
    | .error _ => ([.invokeGraph, .logError, .ackCall, .logWarning], .error e)

/-- C5: whatever the turn outcome — success, or a fatal error from any step of
the graph invocation, the `Reason` step included — `run_agent` performs the
acknowledgment call exactly once, and the returned outcome is exactly the
turn's own outcome: an acknowledgment failure is logged and never replaces or
masks the original error. -/
theorem C5_acknowledgment_always (graphResult : Except TurnError GraphOutcome)
    (ackResult : Except TurnError Unit) :
    (run_agent graphResult ackResult).1.count WorkerEffect.ackCall = 1
    ∧ (run_agent graphResult ackResult).2 = graphResult.map (fun _ => ()) := by
  cases graphResult with
  | ok out =>
    cases ackResult with
    | ok u => cases out with
      | mk b => cases b <;> simp [run_agent, Except.map]
    | error e => cases out with
      | mk b => cases b <;> simp [run_agent, Except.map]
  | error e =>
    cases ackResult with
    | ok u => simp [run_agent, Except.map]
    | error e2 => simp [run_agent, Except.map]

/-! ## Post-turn compaction of conversation history

Embeds the compaction step of `run_agent` (graph.py lines 273–276) together
with the semantics it actually runs against.  The `messages` channel of
`AgentState` (`app/agent/state.py`) is declared
`Annotated[list, add_messages]`, so every state update — including
`graph.aupdate_state(config, dict with messages mapped to an empty list)` —
is merged through the `add_messages` reducer: each incoming message replaces
an existing message with the same id or is appended, and an empty update
list leaves the stored history untouched. -/

structure ChatMessage where
  id : Nat
  content : String
deriving DecidableEq, Repr

def add_messages (old new : List ChatMessage) : List ChatMessage :=
  new.foldl
    (fun acc m =>
      if acc.any (fun x => x.id == m.id) then
        acc.map (fun x => if x.id == m.id then m else x)
      else acc ++ [m])
    old

/-- The history update executed by `graph.aupdate_state` on the `messages`
channel: the provided value is merged via the `add_messages` reducer. -/
def graph_update_state_messages (history update : List ChatMessage) :
    List ChatMessage :=
  add_messages history update

/-- The post-turn compaction in `run_agent`: when `tool_was_called` is set in
the final state snapshot, the code issues a state update carrying an empty
message list. -/
def post_turn_compaction (history : List ChatMessage)
    (tool_was_called : Bool) : List ChatMessage :=
  if tool_was_called then graph_update_state_messages history [] else history

/-- A concrete stored history at the end of a turn in which a tool ran:
user turn, assistant tool-call turn, tool result, assistant reply. -/
def toolTurnHistory : List ChatMessage :=
  [⟨0, "user: crack in wall"⟩,
   ⟨1, "assistant: tool call add_defect"⟩,
   ⟨2, "tool: defect 1 added"⟩,
   ⟨3, "assistant: done"⟩]

/-- C1 (code bug): the post-turn compaction never clears the stored history.
For every stored history and every value of `tool_was_called`, the state
after the compaction step equals the state before it — the empty-list update
is a no-op under the `add_messages` reducer — and in particular the concrete
tool-using turn `toolTurnHistory` is left intact and non-empty, so the next
turn for that session does not start with empty history. -/
theorem C1_compaction_is_noop :
    (∀ (history : List ChatMessage) (tool_was_called : Bool),
      post_turn_compaction history tool_was_called = history)
    ∧ post_turn_compaction toolTurnHistory true = toolTurnHistory
    ∧ toolTurnHistory.length = 4 := by
  refine ⟨fun history twc => ?_, rfl, rfl⟩
  cases twc <;> rfl

/-! ## Sliding-window rate limiter

Embeds `check_rate_limit` in `app/middleware/rate_limit.py`.  The Redis
sorted set `rate:` ++ group_id maps member `str(now)` to score `now`; since
member and score coincide it is a set of timestamps, embedded as a
duplicate-free list of integers.  The pipeline executes, atomically:
`zremrangebyscore key 0 window_start` (drop scores in the closed interval
`[0, now - W]`), `zadd key now`, `zcard key`, `expire` (TTL bookkeeping,
invisible to the count), and the request is rejected with HTTP 429 when the
resulting cardinality strictly exceeds `RATE_LIMIT_MAX_MESSAGES`.
`app/config.py` sets `RATE_LIMIT_MAX_MESSAGES = 20` and
`RATE_LIMIT_WINDOW_SECONDS = 60`. -/

def RATE_LIMIT_MAX_MESSAGES : Int := 20

def RATE_LIMIT_WINDOW_SECONDS : Int := 60

def zremrangebyscore (l : List Int) (lo hi : Int) : List Int :=
  l.filter (fun ts => ¬ (lo ≤ ts ∧ ts ≤ hi))

def zadd (l : List Int) (t : Int) : List Int :=
  if t ∈ l then l else l ++ [t]

structure RateCheck where
  allowed : Bool
  entries : List Int
deriving DecidableEq, Repr

def check_rate_limit_key (l : List Int) (now maxMessages window : Int) : RateCheck :=
  let window_start := now - window
  let pruned := zremrangebyscore l 0 window_start
  let added := zadd pruned now
  let count : Int := added.length
  { allowed := if maxMessages < count then false else true, entries := added }

/-- `check_rate_limit` over the whole keyed store: only the caller's
`group_id` entry is read and written. -/
def check_rate_limit (store : String → List Int) (group_id : String)
    (now maxMessages window : Int) : Bool × (String → List Int) :=
  let rc := check_rate_limit_key (store group_id) now maxMessages window
  (rc.allowed, fun g => if g = group_id then rc.entries else store g)

/-- A sequence of admission attempts for one key, returning the admission
flags in order together with the final window contents. -/
def run_calls (l : List Int) (times : List Int) (maxMessages window : Int) :
    List Bool × List Int :=
  match times with
  | [] => ([], l)
  | t :: ts =>
    let rc := check_rate_limit_key l t maxMessages window
    let rest := run_calls rc.entries ts maxMessages window
    (rc.allowed :: rest.1, rest.2)

theorem check_rate_limit_other_key (store : String → List Int)
    (group_id : String) (now maxMessages window : Int) (g : String)
    (hg : g ≠ group_id) :
    (check_rate_limit store group_id now maxMessages window).2 g = store g := by
  simp [check_rate_limit, hg]

theorem check_rate_limit_key_pruned (l : List Int) (now maxMessages window : Int) :
    ∀ ts ∈ (check_rate_limit_key l now maxMessages window).entries,
      ts = now ∨ ts < 0 ∨ now - window < ts := by
  intro ts hts
  simp only [check_rate_limit_key, zadd] at hts
  by_cases hmem : now ∈ zremrangebyscore l 0 (now - window)
  · simp only [if_pos hmem] at hts
    simp only [zremrangebyscore, List.mem_filter, decide_eq_true_eq] at hts
    omega
  · simp only [if_neg hmem, List.mem_append, List.mem_singleton] at hts
    rcases hts with hin | heq
    · simp only [zremrangebyscore, List.mem_filter, decide_eq_true_eq] at hin
      omega
    · left; exact heq

/-- The 21 admission times for the single-tenant boundary scenario: one
attempt per second from second 0 through second 20, all inside one 60-second
window. -/
def boundaryTimes : List Int := (List.range 21).map Int.ofNat

theorem run_calls_boundary :
    (run_calls [] boundaryTimes RATE_LIMIT_MAX_MESSAGES
        RATE_LIMIT_WINDOW_SECONDS).1
      = List.replicate 20 true ++ [false]
    ∧ (20 : Int) ∈ (run_calls [] boundaryTimes RATE_LIMIT_MAX_MESSAGES
        RATE_LIMIT_WINDOW_SECONDS).2 := by
  constructor <;> decide

theorem run_calls_keyed (maxMessages window : Int) (A : String) :
    ∀ (times : List Int) (store : String → List Int),
      (∀ g, (times.foldl
          (fun st t => (check_rate_limit st A t maxMessages window).2) store) g
        = if g = A then (run_calls (store A) times maxMessages window).2
          else store g) := by
  intro times
  induction times with
  | nil =>
    intro store g
    by_cases hg : g = A <;> simp [run_calls, hg]
  | cons t ts ih =>
    intro store g
    simp only [List.foldl_cons, run_calls]
    rw [ih]
    by_cases hg : g = A <;> simp [hg, check_rate_limit]

/-- C6: with `maxCount = 20` and `W = 60` seconds, a tenant attempting once
per second from second 0 to second 20 is admitted on attempts 1–20 and
rejected on the 21st; the rejected attempt's own timestamp (second 20) stays
recorded in the tenant's window; a different tenant attempting at second 20
of the same window against the same store is admitted; and on every call the
entries surviving in the window have been pruned to those no older than
`now - W` (besides the just-added timestamp). -/
theorem C6_rate_limit_boundary (A B : String) (hAB : B ≠ A) :
    ((run_calls [] boundaryTimes RATE_LIMIT_MAX_MESSAGES
        RATE_LIMIT_WINDOW_SECONDS).1
      = List.replicate 20 true ++ [false])
    ∧ ((20 : Int) ∈ (run_calls [] boundaryTimes RATE_LIMIT_MAX_MESSAGES
        RATE_LIMIT_WINDOW_SECONDS).2)
    ∧ ((check_rate_limit
          (boundaryTimes.foldl
            (fun st t => (check_rate_limit st A t RATE_LIMIT_MAX_MESSAGES
              RATE_LIMIT_WINDOW_SECONDS).2) (fun _ => ([] : List Int)))
          B 20 RATE_LIMIT_MAX_MESSAGES RATE_LIMIT_WINDOW_SECONDS).1 = true)
    ∧ (∀ (l : List Int) (now : Int),
        ∀ ts ∈ (check_rate_limit_key l now RATE_LIMIT_MAX_MESSAGES
          RATE_LIMIT_WINDOW_SECONDS).entries,
        ts = now ∨ ts < 0 ∨ now - RATE_LIMIT_WINDOW_SECONDS < ts) := by
  refine ⟨run_calls_boundary.1, run_calls_boundary.2, ?_, ?_⟩
  · have hB := run_calls_keyed RATE_LIMIT_MAX_MESSAGES RATE_LIMIT_WINDOW_SECONDS
      A boundaryTimes (fun _ => []) B
    rw [if_neg hAB] at hB
    show (check_rate_limit_key
        ((boundaryTimes.foldl
          (fun st t => (check_rate_limit st A t RATE_LIMIT_MAX_MESSAGES
            RATE_LIMIT_WINDOW_SECONDS).2) (fun _ => ([] : List Int))) B)
        20 RATE_LIMIT_MAX_MESSAGES RATE_LIMIT_WINDOW_SECONDS).allowed = true
    rw [hB]
    decide
  · intro l now
    exact check_rate_limit_key_pruned l now RATE_LIMIT_MAX_MESSAGES
      RATE_LIMIT_WINDOW_SECONDS

/-- Witness for C6 at the concrete tenants "site-a" and "site-b". -/
theorem C6_rate_limit_boundary_witness :
    ("site-b" : String) ≠ "site-a"
    ∧ ((run_calls [] boundaryTimes RATE_LIMIT_MAX_MESSAGES
        RATE_LIMIT_WINDOW_SECONDS).1
      = List.replicate 20 true ++ [false]) :=
  ⟨by decide, (C6_rate_limit_boundary "site-a" "site-b" (by decide)).1⟩

/-! ## Fail-open behaviour of the rate limiter

`check_rate_limit` begins with `getattr(request.app.state, "redis", None)`
and returns immediately — admitting the request — when no Redis client is
configured.  When a client is configured, the pipeline `execute()` is awaited
with no surrounding `try`/`except`, so a backing-store error propagates out
of the middleware (FastAPI turns it into a server error); the embedding
reifies the three possibilities for the backing store. -/

inductive RateLimitOutcome where
  | admitted
  | rejected429
  | raisedError
deriving DecidableEq, Repr

inductive RedisBacking where
  | absent
  | reachable (entries : List Int)
  | unreachable
deriving DecidableEq, Repr

def check_rate_limit_request (b : RedisBacking) (now maxMessages window : Int) :
    RateLimitOutcome × RedisBacking :=
  match b with
  | .absent => (.admitted, .absent)
  | .unreachable => (.raisedError, .unreachable)
  | .reachable l =>
    let rc := check_rate_limit_key l now maxMessages window
    (if rc.allowed then .admitted else .rejected429, .reachable rc.entries)

/-- Counterexample to C7: with a Redis client configured but the backing
store unreachable, the limiter does not admit the request — the pipeline
error propagates and the intake request fails. -/
theorem C7_fail_open_counterexample :
    (check_rate_limit_request .unreachable 0 RATE_LIMIT_MAX_MESSAGES
        RATE_LIMIT_WINDOW_SECONDS).1 = .raisedError := by
  decide

/-- C7 (amended): when no backing-store client is configured on the
application state, every admission attempt is admitted without error — this
is the only fail-open path the middleware implements. -/
theorem C7_fail_open_when_absent (now maxMessages window : Int) :
    (check_rate_limit_request .absent now maxMessages window).1
      = .admitted := rfl

/-! ## Speech-to-text service and the Transcribe node

Embeds `transcribe` in `app/services/soniox_service.py` and
`transcribe_node` in `app/agent/graph.py`.  The service submits a job
(`raise_for_status` turns a non-2xx reply into an `httpx.HTTPStatusError`),
then polls once per second up to `STT_TIMEOUT_SECONDS`: a poll answering
status `failed` raises `RuntimeError`, exhaustion of the polling budget
raises `TimeoutError` (the `while`/`else` branch), and any non-2xx poll or
transcript fetch again raises `httpx.HTTPStatusError`.  The node calls the
service only when the event carries a `sonioxFileId` and catches exactly
`(TimeoutError, RuntimeError)`, substituting the empty transcript; every
other exception leaves the node unhandled. -/

inductive SttError where
  | timeoutError
  | runtimeError
  | httpStatusError
deriving DecidableEq, Repr

inductive PollStatus where
  | completed
  | failed
  | processing
deriving DecidableEq, Repr

structure PollResp where
  httpOk : Bool
  jobStatus : PollStatus
deriving DecidableEq, Repr

def poll_loop (polls : Nat → PollResp) : Nat → Nat → Except SttError Unit
  | _, 0 => .error .timeoutError
  | i, fuel + 1 =>
    let r := polls i
    if ¬ r.httpOk then .error .httpStatusError
    else if r.jobStatus = .completed then .ok ()
    else if r.jobStatus = .failed then .error .runtimeError
    else poll_loop polls (i + 1) fuel

structure SonioxApi where
  submitOk : Bool
  polls : Nat → PollResp
  transcriptOk : Bool
  transcriptText : String

def transcribe (api : SonioxApi) (maxPoll : Nat) : Except SttError String :=
  if ¬ api.submitOk then .error .httpStatusError
  else
    match poll_loop api.polls 0 maxPoll with
    | .error e => .error e
    | .ok _ =>
      if ¬ api.transcriptOk then .error .httpStatusError
      else .ok api.transcriptText

/-- The Transcribe graph node: `none` models returning the empty state update
when no audio reference is present, `some t` the state update installing
transcript `t`. -/
def transcribe_node (sonioxFileId : Option String)
    (stt : Except SttError String) : Except SttError (Option String) :=
  match sonioxFileId with
  | none => .ok none
  | some _ =>
    match stt with
    | .ok t => .ok (some t)
    | .error .timeoutError => .ok (some "")
    | .error .runtimeError => .ok (some "")
    | .error .httpStatusError => .error .httpStatusError

/-- Counterexample to C8: an audio turn whose speech-to-text collaborator
answers the submission with a non-2xx HTTP status makes `transcribe` raise
`httpx.HTTPStatusError`, which `transcribe_node` does not catch: the error
propagates out of the Transcribe step instead of degrading to an empty
transcript. -/
theorem C8_transcription_counterexample :
    transcribe ⟨false, fun _ => ⟨true, .processing⟩, true, ""⟩ 60
      = .error .httpStatusError
    ∧ transcribe_node (some "file-001")
        (transcribe ⟨false, fun _ => ⟨true, .processing⟩, true, ""⟩ 60)
      = .error .httpStatusError := by
  exact ⟨rfl, rfl⟩

/-- C8 (amended): on a timeout (`TimeoutError`) or a failed transcription job
(`RuntimeError`) the Transcribe step proceeds with the empty transcript
rather than aborting the turn; an HTTP status error from the collaborator is
the one transcription failure that propagates out of the step. -/
theorem C8_transcription_degrades (fileId : String)
    (stt : Except SttError String)
    (h : stt = .error .timeoutError ∨ stt = .error .runtimeError) :
    transcribe_node (some fileId) stt = .ok (some "") := by
  rcases h with h | h <;> rw [h] <;> rfl

/-- Witness for C8: a job that times out after never completing degrades to
the empty transcript. -/
theorem C8_transcription_degrades_witness :
    (transcribe ⟨true, fun _ => ⟨true, .processing⟩, true, "text"⟩ 60
        = .error .timeoutError
      ∨ transcribe ⟨true, fun _ => ⟨true, .processing⟩, true, "text"⟩ 60
        = .error .runtimeError)
    ∧ transcribe_node (some "file-001")
        (transcribe ⟨true, fun _ => ⟨true, .processing⟩, true, "text"⟩ 60)
      = .ok (some "") :=
  ⟨Or.inl rfl,
   C8_transcription_degrades "file-001" _ (Or.inl rfl)⟩

/-! ## Site context cache

Embeds `SiteCache` in `app/services/site_cache.py`.  The Redis store is an
association list from cache key (`"site:" ++ group_id`) to the serialised
`CachedSite` payload; `None` models a cache with no client configured.  The
system of record (`site_repo.get_by_group_id` behind `_load_from_db`) is a
parameter.  `get` returns a Redis hit immediately; on a miss it loads from
the database, populates the cache only when a row was found (`setex` with
the configured TTL), and returns the row; `invalidate` deletes the key.
TTL expiry is not modelled: every theorem below is about the protocol
between one invalidation and the immediately following reads. -/

structure CachedSite where
  id : Nat
  group_id : String
  name : String
  logo_url : String
  training_phase : String
  context_json : String
deriving DecidableEq, Repr

abbrev RedisStore := List (String × CachedSite)

def redis_key (group_id : String) : String := "site:" ++ group_id

def redis_lookup (store : RedisStore) (k : String) : Option CachedSite :=
  match store.find? (fun p => p.1 == k) with
  | some p => some p.2
  | none => none

def redis_setkey (store : RedisStore) (k : String) (v : CachedSite) : RedisStore :=
  (k, v) :: store.filter (fun p => ¬ p.1 == k)

def redis_delkey (store : RedisStore) (k : String) : RedisStore :=
  store.filter (fun p => ¬ p.1 == k)

structure SiteCacheState where
  redis : Option RedisStore
deriving DecidableEq, Repr

structure GetResult where
  result : Option CachedSite
  state : SiteCacheState
  db_consulted : Bool
deriving DecidableEq, Repr

def site_cache_get (st : SiteCacheState) (group_id : String)
    (db : String → Option CachedSite) : GetResult :=
  match st.redis with
  | none =>
    -- no client: `_redis_get` returns None, `_redis_set` is a no-op
    ⟨db group_id, st, true⟩
  | some store =>
    match redis_lookup store (redis_key group_id) with
    | some cached => ⟨some cached, st, false⟩
    | none =>
      match db group_id with
      | some site => ⟨some site, ⟨some (redis_setkey store (redis_key group_id) site)⟩, true⟩
      | none => ⟨none, st, true⟩

def site_cache_invalidate (st : SiteCacheState) (group_id : String) :
    SiteCacheState :=
  match st.redis with
  | none => st
  | some store => ⟨some (redis_delkey store (redis_key group_id))⟩

theorem redis_lookup_delkey (store : RedisStore) (k : String) :
    redis_lookup (redis_delkey store k) k = none := by
  unfold redis_lookup redis_delkey
  rw [List.find?_eq_none.mpr]
  intro p hp
  simp only [List.mem_filter] at hp
  simpa using hp.2

theorem site_cache_get_after_invalidate (st : SiteCacheState)
    (group_id : String) (db : String → Option CachedSite) :
    (site_cache_get (site_cache_invalidate st group_id) group_id db).db_consulted = true
    ∧ (site_cache_get (site_cache_invalidate st group_id) group_id db).result
        = db group_id := by
  cases st with
  | mk redis =>
    cases redis with
    | none => exact ⟨rfl, rfl⟩
    | some store =>
      simp only [site_cache_invalidate, site_cache_get,
        redis_lookup_delkey store (redis_key group_id)]
      cases db group_id <;> exact ⟨rfl, rfl⟩

/-- C9: after `invalidate(tenantId)`, the next `get(tenantId)` consults the
system of record and returns its answer rather than any previously cached
value; and when the system of record has no row, `get` returns empty without
caching the negative result, so a further `get` consults the system of
record again. -/
theorem C9_cache_invalidation (st : SiteCacheState) (group_id : String)
    (db : String → Option CachedSite) :
    ((site_cache_get (site_cache_invalidate st group_id) group_id db).db_consulted = true
      ∧ (site_cache_get (site_cache_invalidate st group_id) group_id db).result
          = db group_id)
    ∧ (db group_id = none →
        (site_cache_get (site_cache_invalidate st group_id) group_id db).result = none
        ∧ (site_cache_get
            (site_cache_get (site_cache_invalidate st group_id) group_id db).state
            group_id db).db_consulted = true) := by
  refine ⟨site_cache_get_after_invalidate st group_id db, fun hdb => ?_⟩
  constructor
  · rw [(site_cache_get_after_invalidate st group_id db).2, hdb]
  · cases st with
    | mk redis =>
      cases redis with
      | none => rfl
      | some store =>
        simp only [site_cache_invalidate, site_cache_get,
          redis_lookup_delkey store (redis_key group_id), hdb]

/-- Witness for C9: a populated one-entry cache, invalidated and read back
against a system of record with no row. -/
theorem C9_cache_invalidation_witness :
    ((fun _ => none : String → Option CachedSite) "g1" = none)
    ∧ (site_cache_get
        (site_cache_invalidate
          ⟨some [("site:g1", ⟨1, "g1", "Site One", "", "", ""⟩)]⟩ "g1")
        "g1" (fun _ => none)).result = none := by
  have h := (C9_cache_invalidation
    ⟨some [("site:g1", ⟨1, "g1", "Site One", "", "", ""⟩)]⟩ "g1"
    (fun _ => none)).2 rfl
  exact ⟨rfl, h.1⟩

/-! ## Defect updates

Embeds `update` in `app/db/repositories/defect_repo.py` and the kwargs
construction of the `update_defect` tool in
`app/agent/tools/update_defect.py`.  A defect row carries the five mutable
fields touched by the tool; `defects` has a unique constraint on
`(site_id, defect_id)` (`app/db/models.py`), and the repository fetches the
row by that pair, applies `setattr` for every keyword argument whose value
is not the empty string, and flushes.  Keyword arguments are embedded as
`Option String` (absent / present); the tool adds an argument to the kwargs
dict only when the caller passed a non-empty (truthy) string. -/

structure Defect where
  id : Nat
  defect_id : Nat
  site_id : Nat
  description : String
  supplier : String
  location : String
  image_url : String
  defectStatus : String
deriving DecidableEq, Repr

structure UpdateKwargs where
  description : Option String := none
  supplier : Option String := none
  location : Option String := none
  image_url : Option String := none
  defectStatus : Option String := none
deriving DecidableEq, Repr

/-- `if value != "": setattr(defect, key, value)` for one column. -/
def apply_field (cur : String) (arg : Option String) : String :=
  match arg with
  | none => cur
  | some v => if v = "" then cur else v

def apply_kwargs (d : Defect) (k : UpdateKwargs) : Defect :=
  { d with
    description := apply_field d.description k.description
    supplier := apply_field d.supplier k.supplier
    location := apply_field d.location k.location
    image_url := apply_field d.image_url k.image_url
    defectStatus := apply_field d.defectStatus k.defectStatus }

def get_by_site_and_defect_id (defects : List Defect) (site_id defect_id : Nat) :
    Option Defect :=
  defects.find? (fun d => d.site_id == site_id && d.defect_id == defect_id)

def defect_repo_update (defects : List Defect) (site_id defect_id : Nat)
    (k : UpdateKwargs) : Option (List Defect × Defect) :=
  match get_by_site_and_defect_id defects site_id defect_id with
  | none => none
  | some d =>
    let d2 := apply_kwargs d k
    some
      (defects.map (fun x =>
        if x.site_id == site_id && x.defect_id == defect_id then d2 else x),
       d2)

/-- The kwargs dict the `update_defect` tool builds: a key is present exactly
when the corresponding argument is truthy, i.e. a non-empty string. -/
def build_update_kwargs (description supplier location image statusArg : String) :
    UpdateKwargs :=
  { description := if description = "" then none else some description
    supplier := if supplier = "" then none else some supplier
    location := if location = "" then none else some location
    image_url := if image = "" then none else some image
    defectStatus := if statusArg = "" then none else some statusArg }

theorem apply_field_empty (cur : String) :
    apply_field cur (some "") = cur ∧ apply_field cur none = cur := ⟨rfl, rfl⟩

/-- C10: updating through the tool with the empty string for an argument
leaves that column unchanged, a non-empty argument replaces it, and every
defect other than the addressed `(site_id, defect_id)` row keeps all its
prior values: the updated list changes at most the addressed row. -/
theorem C10_update_empty_is_frame (defects : List Defect)
    (site_id defect_id : Nat)
    (description supplier location image statusArg : String) (d : Defect)
    (hfind : get_by_site_and_defect_id defects site_id defect_id = some d) :
    ∃ updated d2,
      defect_repo_update defects site_id defect_id
          (build_update_kwargs description supplier location image statusArg)
        = some (updated, d2)
      ∧ d2.description = (if description = "" then d.description else description)
      ∧ d2.supplier = (if supplier = "" then d.supplier else supplier)
      ∧ d2.location = (if location = "" then d.location else location)
      ∧ d2.image_url = (if image = "" then d.image_url else image)
      ∧ d2.defectStatus = (if statusArg = "" then d.defectStatus else statusArg)
      ∧ d2.id = d.id ∧ d2.site_id = d.site_id ∧ d2.defect_id = d.defect_id
      ∧ ∀ x ∈ defects, ¬ (x.site_id = site_id ∧ x.defect_id = defect_id) →
          x ∈ updated := by
  have hrepo : defect_repo_update defects site_id defect_id
      (build_update_kwargs description supplier location image statusArg)
      = some
        (defects.map (fun x =>
          if x.site_id == site_id && x.defect_id == defect_id then
            apply_kwargs d
              (build_update_kwargs description supplier location image statusArg)
          else x),
         apply_kwargs d
           (build_update_kwargs description supplier location image statusArg)) := by
    unfold defect_repo_update
    rw [hfind]
  refine ⟨_, _, hrepo, ?_, ?_, ?_, ?_, ?_, rfl, rfl, rfl, ?_⟩
  · simp only [apply_kwargs, build_update_kwargs, apply_field]
    by_cases hd : description = "" <;> simp [hd]
  · simp only [apply_kwargs, build_update_kwargs, apply_field]
    by_cases hd : supplier = "" <;> simp [hd]
  · simp only [apply_kwargs, build_update_kwargs, apply_field]
    by_cases hd : location = "" <;> simp [hd]
  · simp only [apply_kwargs, build_update_kwargs, apply_field]
    by_cases hd : image = "" <;> simp [hd]
  · simp only [apply_kwargs, build_update_kwargs, apply_field]
    by_cases hd : statusArg = "" <;> simp [hd]
  · intro x hx hne
    apply List.mem_map.mpr
    refine ⟨x, hx, ?_⟩
    have : ¬ (x.site_id == site_id && x.defect_id == defect_id) = true := by
      simp only [Bool.and_eq_true, beq_iff_eq]
      exact hne
    simp [this]

/-- Witness for C10: one defect on file, updated with a new description, an
empty supplier and an empty status; the empty arguments leave their columns
at the prior values. -/
theorem C10_update_empty_is_frame_witness :
    get_by_site_and_defect_id
        [⟨1, 1, 7, "crack in wall", "acme", "lobby", "", "open"⟩] 7 1
      = some ⟨1, 1, 7, "crack in wall", "acme", "lobby", "", "open"⟩
    ∧ ∃ updated d2,
        defect_repo_update [⟨1, 1, 7, "crack in wall", "acme", "lobby", "", "open"⟩]
            7 1 (build_update_kwargs "crack repaired" "" "" "" "")
          = some (updated, d2)
        ∧ d2.description
            = (if ("crack repaired" : String) = "" then "crack in wall"
               else "crack repaired")
        ∧ d2.supplier = (if ("" : String) = "" then "acme" else "")
        ∧ d2.location = (if ("" : String) = "" then "lobby" else "")
        ∧ d2.image_url = (if ("" : String) = "" then "" else "")
        ∧ d2.defectStatus = (if ("" : String) = "" then "open" else "")
        ∧ d2.id = 1 ∧ d2.site_id = 7 ∧ d2.defect_id = 1
        ∧ ∀ x ∈ [(⟨1, 1, 7, "crack in wall", "acme", "lobby", "", "open"⟩ : Defect)],
            ¬ (x.site_id = 7 ∧ x.defect_id = 1) → x ∈ updated := by
  refine ⟨by decide, ?_⟩
  exact C10_update_empty_is_frame
    [⟨1, 1, 7, "crack in wall", "acme", "lobby", "", "open"⟩] 7 1
    "crack repaired" "" "" "" ""
    ⟨1, 1, 7, "crack in wall", "acme", "lobby", "", "open"⟩ (by decide)

end BobAgent
